import Mathlib

/-!
Verification of the conversational booking bot (`bot.py`, `calendar_manager.py`).

This file gives a shallow embedding of the booking state machine, the Italian
natural-language date/time resolver, and the availability checker, translated
from the Python source, together with theorems settling the specification
claims.

Conventions of the embedding:
* Python `datetime` values (always in the single fixed timezone Europe/Rome,
  so wall-clock fields determine the instant) are modelled by `PyDateTime`:
  a day number in the proleptic Gregorian calendar (days since 1970-01-01)
  plus hour/minute/second/microsecond fields.  `datetime + timedelta(days=n)`
  adds `n` to the day number; comparison is lexicographic, i.e. comparison of
  total microseconds.
* Python strings are modelled as `List Char`; the handful of fixed regular
  expressions in the source are compiled by hand into scanning functions with
  Python's leftmost-match / greedy-with-backtracking semantics.
* `datetime.now(...)` is passed in as an explicit `now` parameter.
* External collaborators (Google calendar service, user profile store,
  transcription) are environment records of pure functions; a call to
  `create_appointment` is recorded as an insert-call effect.
-/

/-! ## Python datetime model -/

/-- A timezone-aware Python `datetime` in the fixed Europe/Rome timezone:
`days` counts days since 1970-01-01 in the proleptic Gregorian calendar. -/
structure PyDateTime where
  days : Int
  hour : Nat
  minute : Nat
  second : Nat
  micro : Nat
  deriving Repr, DecidableEq

namespace PyDateTime

/-- Total microseconds since the epoch; Python compares datetimes by instant,
which for a fixed timezone is this value. -/
def toMicros (d : PyDateTime) : Int :=
  (((d.days * 24 + (d.hour : Int)) * 60 + (d.minute : Int)) * 60 + (d.second : Int))
      * 1000000 + (d.micro : Int)

/-- Python `datetime + timedelta(days=n)` (naive wall-clock arithmetic, as Python
performs on aware datetimes without `normalize`). -/
def addDays (d : PyDateTime) (n : Int) : PyDateTime := { d with days := d.days + n }

/-- Reconstruct a datetime from microseconds since the epoch. -/
def ofMicros (m : Int) : PyDateTime :=
  let r : Nat := (m.emod 86400000000).toNat
  { days := m.ediv 86400000000
    hour := r / 3600000000
    minute := r / 60000000 % 60
    second := r / 1000000 % 60
    micro := r % 1000000 }

/-- Python `datetime + timedelta(minutes=n)`. -/
def addMinutes (d : PyDateTime) (n : Nat) : PyDateTime :=
  ofMicros (d.toMicros + (n : Int) * 60000000)

/-- Python `.replace(hour=h, minute=mi, second=0, microsecond=0)`. -/
def replaceHMS0 (d : PyDateTime) (h mi : Nat) : PyDateTime :=
  { d with hour := h, minute := mi, second := 0, micro := 0 }

/-- Python `.replace(hour=h, minute=mi)` (seconds/microseconds untouched). -/
def replaceHM (d : PyDateTime) (h mi : Nat) : PyDateTime :=
  { d with hour := h, minute := mi }

/-- Python `datetime.weekday()`: Monday = 0 … Sunday = 6.
1970-01-01 (day 0) was a Thursday, weekday 3. -/
def weekday (d : PyDateTime) : Nat := ((d.days + 3).emod 7).toNat

instance : LT PyDateTime := ⟨fun a b => a.toMicros < b.toMicros⟩

instance : DecidableRel (· < · : PyDateTime → PyDateTime → Prop) :=
  fun a b => inferInstanceAs (Decidable (a.toMicros < b.toMicros))

end PyDateTime

/-! ### Civil calendar conversions (for `datetime(year, month, day)` and
`now.year`), the standard proleptic-Gregorian day-number algorithms. -/

def isLeapYear (y : Int) : Bool := (y % 4 == 0 && y % 100 != 0) || y % 400 == 0

def daysInMonth (y : Int) (m : Nat) : Nat :=
  match m with
  | 1 => 31 | 2 => if isLeapYear y then 29 else 28 | 3 => 31 | 4 => 30
  | 5 => 31 | 6 => 30 | 7 => 31 | 8 => 31
  | 9 => 30 | 10 => 31 | 11 => 30 | 12 => 31
  | _ => 0

/-- Day number (days since 1970-01-01) of the civil date `y-m-d`. -/
def civilToDays (y : Int) (m d : Nat) : Int :=
  let y' : Int := if m ≤ 2 then y - 1 else y
  let era : Int := y'.ediv 400
  let yoe : Nat := (y' - era * 400).toNat
  let mp : Nat := if m > 2 then m - 3 else m + 9
  let doy : Nat := (153 * mp + 2) / 5 + (d - 1)
  let doe : Nat := yoe * 365 + yoe / 4 - yoe / 100 + doy
  era * 146097 + (doe : Int) - 719468

/-- Civil date `(y, m, d)` of a day number. -/
def daysToCivil (z : Int) : Int × Nat × Nat :=
  let z' := z + 719468
  let era : Int := z'.ediv 146097
  let doe : Nat := (z' - era * 146097).toNat
  let yoe : Nat := (doe - doe / 1460 + doe / 36524 - doe / 146096) / 365
  let y : Int := (yoe : Int) + era * 400
  let doy : Nat := doe - (365 * yoe + yoe / 4 - yoe / 100)
  let mp : Nat := (5 * doy + 2) / 153
  let d : Nat := doy - (153 * mp + 2) / 5 + 1
  let m : Nat := if mp < 10 then mp + 3 else mp - 9
  (if m ≤ 2 then y + 1 else y, m, d)

/-- Python `now.year`. -/
def PyDateTime.year (dt : PyDateTime) : Int := (daysToCivil dt.days).1

/-! ## Python string model -/

/-- Python strings as character lists. -/
abbrev Str := List Char

/-- Python `str.lower()` restricted to the alphabet the bot's patterns use
(ASCII letters plus the Italian accented vowels). -/
def pyLower (c : Char) : Char :=
  if 'A' ≤ c ∧ c ≤ 'Z' then Char.ofNat (c.toNat + 32)
  else if c = 'À' then 'à' else if c = 'È' then 'è' else if c = 'É' then 'é'
  else if c = 'Ì' then 'ì' else if c = 'Ò' then 'ò' else if c = 'Ù' then 'ù'
  else c

/-- Python `\s` whitespace (ASCII part). -/
def pyIsSpace (c : Char) : Bool :=
  c = ' ' || c = '\t' || c = '\n' || c = '\x0d' || c = '\x0b' || c = '\x0c'

/-- Python `str.strip()`. -/
def pyStrip (s : Str) : Str :=
  ((s.dropWhile pyIsSpace).reverse.dropWhile pyIsSpace).reverse

/-- Python `text.lower().strip()`, the normalization both the resolver and the
confirmation handler apply first. -/
def pyNormalize (s : Str) : Str := pyStrip (s.map pyLower)

/-- ASCII decimal digit (regex `\d` over the inputs of interest). -/
def pyIsDigit (c : Char) : Bool := '0' ≤ c && c ≤ '9'

/-- Regex `\w` word character over the alphabet the bot's patterns use. -/
def pyIsWordChar (c : Char) : Bool :=
  ('a' ≤ c && c ≤ 'z') || ('A' ≤ c && c ≤ 'Z') || pyIsDigit c || c = '_' ||
    c = 'à' || c = 'è' || c = 'é' || c = 'ì' || c = 'ò' || c = 'ù'

def digitVal (c : Char) : Nat := c.toNat - 48

/-- Python substring test `needle in hay`. -/
def hasSubstr (hay needle : Str) : Bool :=
  needle.isPrefixOf hay ||
    match hay with
    | [] => false
    | _ :: t => hasSubstr t needle

/-- Python `str.replace(pat, "")` (delete every occurrence, leftmost first). -/
def pyReplaceDel (pat : Str) : Str → Str
  | [] => []
  | c :: rest =>
    if pat.isPrefixOf (c :: rest) && pat.length > 0 then
      pyReplaceDel pat (rest.drop (pat.length - 1))
    else c :: pyReplaceDel pat rest
termination_by s => s.length
decreasing_by
  · simp only [List.length_drop, List.length_cons]; omega
  · simp [List.length_cons]

/-! ### Hand-compiled `re.search`.

A matcher receives the character immediately before the current position
(`none` at the start of the string, needed for `\b`) and the remaining text,
and returns the captured value if the pattern matches here.  `reSearch` tries
positions left to right, so the first position with a match wins, exactly as
`re.search` does. -/

def searchFrom (m : Option Char → Str → Option α) : Option Char → Str → Option α
  | prev, [] => m prev []
  | prev, c :: t =>
    match m prev (c :: t) with
    | some a => some a
    | none => searchFrom m (some c) t

def reSearch (m : Option Char → Str → Option α) (s : Str) : Option α :=
  searchFrom m none s

/-- Greedy `(\d{1,2})`: candidate (value, rest) pairs in backtracking
preference order (two digits first, then one). -/
def takeDigits2 : Str → List (Nat × Str)
  | a :: b :: t =>
    if pyIsDigit a && pyIsDigit b then
      [(digitVal a * 10 + digitVal b, t), (digitVal a, b :: t)]
    else if pyIsDigit a then [(digitVal a, b :: t)] else []
  | [a] => if pyIsDigit a then [(digitVal a, [])] else []
  | [] => []

/-- Boundary `\b` on the left of a word-char-initial token: previous char is missing or
not a word char. -/
def boundaryL (prev : Option Char) : Bool :=
  match prev with
  | none => true
  | some c => !pyIsWordChar c

/-- Boundary `\b` on the right of a word-char-final token: next char is missing or not
a word char. -/
def boundaryR (rest : Str) : Bool :=
  match rest with
  | [] => true
  | c :: _ => !pyIsWordChar c

/-- Matcher for `\bWORD\b` at the current position. -/
def matchWordAt (w : Str) (prev : Option Char) (l : Str) : Option Unit :=
  if boundaryL prev && w.isPrefixOf l && boundaryR (l.drop w.length) then some ()
  else none

/-- Matcher for the date pattern `(\d{1,2})/(\d{1,2})(?:/(\d{4}))?`,
returning (day, month, optional year). -/
def matchSlashAt (_prev : Option Char) (l : Str) : Option (Nat × Nat × Option Nat) :=
  (takeDigits2 l).findSome? fun dm =>
    match dm.2 with
    | '/' :: r2 =>
      (takeDigits2 r2).findSome? fun mm =>
        match mm.2 with
        | '/' :: a :: b :: c :: d :: _ =>
          if pyIsDigit a && pyIsDigit b && pyIsDigit c && pyIsDigit d then
            some (dm.1, mm.1,
              some (((digitVal a * 10 + digitVal b) * 10 + digitVal c) * 10 + digitVal d))
          else some (dm.1, mm.1, none)
        | _ => some (dm.1, mm.1, none)
    | _ => none

/-- Matcher for the time pattern `(\d{1,2}):(\d{2})`. -/
def matchHMAt (_prev : Option Char) (l : Str) : Option (Nat × Nat) :=
  (takeDigits2 l).findSome? fun hm =>
    match hm.2 with
    | ':' :: a :: b :: _ =>
      if pyIsDigit a && pyIsDigit b then some (hm.1, digitVal a * 10 + digitVal b) else none
    | _ => none

/-- Matcher for the time pattern `\b(\d{1,2})\s*(?:ore|h)\b` (minute 0). -/
def matchOreAt (prev : Option Char) (l : Str) : Option (Nat × Nat) :=
  if boundaryL prev then
    (takeDigits2 l).findSome? fun hm =>
      let r2 := hm.2.dropWhile pyIsSpace
      if ['o', 'r', 'e'].isPrefixOf r2 && boundaryR (r2.drop 3) then some (hm.1, 0)
      else if ['h'].isPrefixOf r2 && boundaryR (r2.drop 1) then some (hm.1, 0)
      else none
  else none

/-- Matcher for the time pattern `alle\s+(\d{1,2})(?::(\d{2}))?`
(`int(m) if m else 0` for the optional minute group). -/
def matchAlleAt (_prev : Option Char) (l : Str) : Option (Nat × Nat) :=
  if ['a', 'l', 'l', 'e'].isPrefixOf l then
    let r1 := l.drop 4
    if (r1.takeWhile pyIsSpace).isEmpty then none
    else
      (takeDigits2 (r1.dropWhile pyIsSpace)).findSome? fun hm =>
        match hm.2 with
        | ':' :: a :: b :: _ =>
          if pyIsDigit a && pyIsDigit b then some (hm.1, digitVal a * 10 + digitVal b)
          else some (hm.1, 0)
        | _ => some (hm.1, 0)
  else none

/-! ## `CalendarManager.parse_datetime_natural` -/

/-- The Italian weekday table, in the source's (insertion-ordered) dict order. -/
def giorni : List (Str × Nat) :=
  [(['l', 'u', 'n', 'e', 'd', 'ì'], 0), (['m', 'a', 'r', 't', 'e', 'd', 'ì'], 1),
   (['m', 'e', 'r', 'c', 'o', 'l', 'e', 'd', 'ì'], 2),
   (['g', 'i', 'o', 'v', 'e', 'd', 'ì'], 3), (['v', 'e', 'n', 'e', 'r', 'd', 'ì'], 4),
   (['s', 'a', 'b', 'a', 't', 'o'], 5), (['d', 'o', 'm', 'e', 'n', 'i', 'c', 'a'], 6)]

/-- Model of `_parse_date_dmy`: `datetime(year, month, day, 9, 0)` in the fixed
timezone; a `ValueError` (invalid date, year out of `datetime`'s range)
yields `None`. -/
def parse_date_dmy (day month : Nat) (year : Int) : Option PyDateTime :=
  if 1 ≤ year ∧ year ≤ 9999 ∧ 1 ≤ month ∧ month ≤ 12 ∧ 1 ≤ day ∧
      day ≤ daysInMonth year month then
    some ⟨civilToDays year month day, 9, 0, 0, 0⟩
  else none

/-- The date-anchor loop: the first of the four `date_patterns` that matches
anywhere wins (`break`), and its parser runs — which for the `dd/mm[/yyyy]`
pattern may still produce `None`. -/
def dateAnchors (t : Str) (now : PyDateTime) : Option PyDateTime :=
  match reSearch matchSlashAt t with
  | some (d, m, y?) => parse_date_dmy d m ((y?.map (Nat.cast)).getD now.year)
  | none =>
    if (reSearch (matchWordAt ['o', 'g', 'g', 'i']) t).isSome then
      some (now.replaceHMS0 9 0)
    else if (reSearch (matchWordAt ['d', 'o', 'm', 'a', 'n', 'i']) t).isSome then
      some ((now.addDays 1).replaceHMS0 9 0)
    else if (reSearch (matchWordAt ['d', 'o', 'p', 'o', 'd', 'o', 'm', 'a', 'n', 'i']) t).isSome then
      some ((now.addDays 2).replaceHMS0 9 0)
    else none

/-- The weekday branch body: `days_ahead = weekday - now.weekday()`, rolled
forward a week when `days_ahead <= 0`, at 09:00. -/
def nextWeekdayDate (now : PyDateTime) (w : Nat) : PyDateTime :=
  let da : Int := (w : Int) - (now.weekday : Int)
  let da := if da ≤ 0 then da + 7 else da
  (now.addDays da).replaceHMS0 9 0

/-- The weekday scan: first weekday name (in `giorni` order) contained in the
text wins. -/
def weekdayScan (t : Str) (now : PyDateTime) : Option PyDateTime :=
  giorni.findSome? fun g => if hasSubstr t g.1 then some (nextWeekdayDate now g.2) else none

/-- The range check `0 <= hour <= 23 and 0 <= minute <= 59`. -/
def timeInRange (hm : Nat × Nat) : Bool := hm.1 ≤ 23 && hm.2 ≤ 59

/-- The `time_patterns` loop: each pattern is searched over the whole text in
order; an in-range result breaks the loop, an out-of-range result falls
through to the next pattern. -/
def timeScan (t : Str) : Option (Nat × Nat) :=
  [reSearch matchHMAt t, reSearch matchOreAt t, reSearch matchAlleAt t].findSome? fun r =>
    match r with
    | some hm => if timeInRange hm then some hm else none
    | none => none

/-- Model of `parse_datetime_natural` on already-normalized text. -/
def parse_core (t : Str) (now : PyDateTime) : Option PyDateTime :=
  let anchored :=
    match dateAnchors t now with
    | some d => some d
    | none => weekdayScan t now
  match anchored with
  | none => none
  | some d =>
    match timeScan t with
    | some hm => some (d.replaceHM hm.1 hm.2)
    | none => some d

/-- Model of `CalendarManager.parse_datetime_natural(text)` with `datetime.now(tz)`
passed explicitly. -/
def parse_datetime_natural (text : Str) (now : PyDateTime) : Option PyDateTime :=
  parse_core (pyNormalize text) now

/-! ## Calendar collaborator model (`calendar_manager.py`) -/

/-- A Google calendar event as the core reads it: only `summary` and
`description` matter to the filtering and creation logic. -/
structure GEvent where
  summary : Str
  description : Str
  deriving Repr, DecidableEq

/-- The two `except` arms of `check_availability`. -/
inductive CalError
  | httpError
  | otherError
  deriving Repr, DecidableEq

/-- The calendar collaborator: whether `setup_service` produced a service,
what `events().list` returns for a window, whether `calendars().get`
succeeds, and whether `events().insert` succeeds. -/
structure CalendarEnv where
  serviceAvailable : Bool
  listEvents : PyDateTime → PyDateTime → Except CalError (List GEvent)
  calendarGetOk : Bool
  insertOk : Bool

/-- Decimal digits with explicit fuel (structural recursion so that the
kernel can evaluate it); `fuel > n` suffices. -/
def natReprAux : Nat → Nat → Str
  | 0, _ => []
  | fuel + 1, n =>
    if n < 10 then [Char.ofNat (48 + n)]
    else natReprAux fuel (n / 10) ++ [Char.ofNat (48 + n % 10)]

/-- Decimal digits of a natural number (Python `str(n)` for `n ≥ 0`). -/
def natRepr (n : Nat) : Str := natReprAux (n + 1) n

/-- Python `str(i)` / f-string interpolation of an `int`. -/
def intRepr (i : Int) : Str :=
  if i < 0 then '-' :: natRepr (-i).toNat else natRepr i.toNat

/-- The owner tag `f"[USER_ID:{user_id}]"` embedded in event descriptions. -/
def ownerTag (uid : Int) : Str :=
  ['[', 'U', 'S', 'E', 'R', '_', 'I', 'D', ':'] ++ intRepr uid ++ [']']

/-- Python truthiness of the `user_id: int = None` parameter: `None` and `0`
are falsy. -/
def uidTruthy (uid : Option Int) : Bool :=
  match uid with
  | none => false
  | some v => v != 0

/-- Model of `CalendarManager.check_availability(start_time, end_time, user_id)`:
no service → `(False, [])`; an error from the API → `(True, [])`; otherwise
filter the listed events to those whose description carries the owner tag
(all events in admin mode) and report free iff none remain. -/
def check_availability (env : CalendarEnv) (start_time end_time : PyDateTime)
    (user_id : Option Int) : Bool × List GEvent :=
  if !env.serviceAvailable then (false, [])
  else
    match env.listEvents start_time end_time with
    | .error _ => (true, [])
    | .ok events =>
      let relevant :=
        if uidTruthy user_id then
          events.filter fun e => hasSubstr e.description (ownerTag (user_id.getD 0))
        else events
      (relevant.isEmpty, relevant)

/-- Matcher for `Cliente: ([^\n]+)` (at least one non-newline char). -/
def matchClienteAt (_prev : Option Char) (l : Str) : Option Str :=
  if ['C', 'l', 'i', 'e', 'n', 't', 'e', ':', ' '].isPrefixOf l then
    let rest := (l.drop 9).takeWhile (· ≠ '\n')
    if rest.isEmpty then none else some rest
  else none

/-- The enhanced title/description `create_appointment` builds: the owner tag
is prepended to the description, and a `Cliente: …` line, when present, is
appended to the title. -/
def enhanceEvent (title description : Str) (user_id : Option Int) : Str × Str :=
  if uidTruthy user_id then
    let uid := user_id.getD 0
    let desc' := ownerTag uid ++ (' ' :: description)
    let title' :=
      if hasSubstr description ['C', 'l', 'i', 'e', 'n', 't', 'e', ':'] then
        match reSearch matchClienteAt description with
        | some name => title ++ (' ' :: '-' :: ' ' :: pyStrip name)
        | none => title
      else title
    (title', desc')
  else (title, description)

/-- Model of `CalendarManager.create_appointment`: returns the created event, or
`None` when the service is missing, the calendar is inaccessible, or the
insert fails. -/
def create_appointment (env : CalendarEnv) (title : Str)
    (_start_time _end_time : PyDateTime) (description : Str) (user_id : Option Int) :
    Option GEvent :=
  if !env.serviceAvailable then none
  else
    let te := enhanceEvent title description user_id
    if !env.calendarGetOk then none
    else if env.insertOk then some { summary := te.1, description := te.2 }
    else none

/-- Model of `CalendarManager.suggest_free_slots`: 30-minute grid between 09:00 and
18:00 on the preferred date, keeping starts whose slot is free, first 5. -/
def suggest_free_slots (env : CalendarEnv) (preferred_date : PyDateTime)
    (duration_minutes : Nat) : List PyDateTime :=
  if !env.serviceAvailable then []
  else
    let dayStart := preferred_date.replaceHMS0 9 0
    let dayEnd := preferred_date.replaceHMS0 18 0
    let starts := (List.range 19).filterMap fun i =>
      let s := dayStart.addMinutes (30 * i)
      if (s.addMinutes duration_minutes).toMicros ≤ dayEnd.toMicros then some s else none
    (starts.filter fun s =>
      (check_availability env s (s.addMinutes duration_minutes) none).1).take 5

/-! ## Bot state machine (`bot.py`) -/

/-- The `step` values of a booking flow. -/
inductive BookingStep
  | waitingDatetime
  | waitingTitle
  | waitingConfirmation
  deriving Repr, DecidableEq

/-- The `data` dict of a booking flow (absent keys are `none`). -/
structure BookingData where
  datetime : Option PyDateTime := none
  endTime : Option PyDateTime := none
  title : Option Str := none
  originalText : Option Str := none
  suggestedSlots : Option (List PyDateTime) := none
  deriving Repr, DecidableEq

/-- One entry of `self.booking_flows`. -/
structure BookingFlow where
  step : BookingStep
  data : BookingData
  deriving Repr, DecidableEq

/-- The `step` values of a registration flow. -/
inductive RegStep
  | waitingNome
  | waitingCognome
  | waitingEmail
  | waitingTelefono
  | waitingVia
  | waitingCitta
  deriving Repr, DecidableEq

/-- One entry of `self.registration_flows`. -/
structure RegFlow where
  step : RegStep
  telegramName : Str
  nome : Option Str := none
  cognome : Option Str := none
  email : Option Str := none
  telefono : Option Str := none
  via : Option Str := none
  deriving Repr, DecidableEq

/-- The bot's mutable session state: the two per-user flow dictionaries. -/
structure BotState where
  booking_flows : Int → Option BookingFlow
  registration_flows : Int → Option RegFlow

def BotState.setBooking (st : BotState) (u : Int) (f : BookingFlow) : BotState :=
  { st with booking_flows := fun v => if v = u then some f else st.booking_flows v }

def BotState.delBooking (st : BotState) (u : Int) : BotState :=
  { st with booking_flows := fun v => if v = u then none else st.booking_flows v }

def BotState.setReg (st : BotState) (u : Int) (f : RegFlow) : BotState :=
  { st with registration_flows := fun v => if v = u then some f else st.registration_flows v }

def BotState.delReg (st : BotState) (u : Int) : BotState :=
  { st with registration_flows := fun v => if v = u then none else st.registration_flows v }

/-- The responses the modelled handlers emit, by kind. -/
inductive BotReply
  | pastDate
  | datetimeNotUnderstood
  | datetimeSaved (dt : PyDateTime)
  | conflictSuggestions (slots : List PyDateTime)
  | bookingSummary (start_ end_ : PyDateTime) (title : Str)
  | bookingCreated
  | bookingCreateError
  | bookingCancelled
  | confirmationNotUnderstood
  | sessionExpired
  | bookingStartedParsed (dt : PyDateTime)
  | bookingStartedAskDatetime
  | registrationPrompt (step : RegStep)
  | registrationRetry (step : RegStep)
  | registrationDone
  | registrationSaveError
  | menuOrInfo
  | normalReply
  | transcriptionFailed
  | genericError
  deriving Repr, DecidableEq

/-- The arguments of one `create_appointment` call, i.e. one calendar-insert
request issued to the calendar collaborator. -/
structure InsertCall where
  title : Str
  start_time : PyDateTime
  end_time : PyDateTime
  description : Str
  user_id : Option Int
  deriving Repr, DecidableEq

/-- Result of processing one inbound event: the new session state, the
replies sent, the calendar-insert calls made, and the availability queries
issued. -/
structure StepResult where
  state : BotState
  replies : List BotReply := []
  inserts : List InsertCall := []
  availCalls : List (PyDateTime × PyDateTime × Option Int) := []

/-- The non-session collaborators `bot.py` talks to: the calendar manager's
environment, the user profile store (`UserManager`), the Telegram profile
name, the AI name extractor, and whether `register_user` persists. -/
structure BotEnv where
  cal : CalendarEnv
  isRegistered : Int → Bool
  userInfo : Int → Str
  telegramName : Int → Str
  extractName : Str → Option Str
  registerOk : Bool

/-- The string `f"Appuntamento prenotato tramite bot Telegram\n\n{user_info}"`. -/
def bookingDescription (user_info : Str) : Str :=
  "Appuntamento prenotato tramite bot Telegram".data ++ '\n' :: '\n' :: user_info

/-- Model of `_handle_datetime_input`: unparseable → re-prompt; in the past →
reject; otherwise store the datetime and advance to `waiting_title`. -/
def handle_datetime_input (now : PyDateTime) (u : Int) (text : Str)
    (flow : BookingFlow) (st : BotState) : StepResult :=
  match parse_datetime_natural text now with
  | some dt =>
    if dt < now then { state := st, replies := [.pastDate] }
    else
      { state := st.setBooking u
          { step := .waitingTitle, data := { flow.data with datetime := some dt } }
        replies := [.datetimeSaved dt] }
  | none => { state := st, replies := [.datetimeNotUnderstood] }

/-- Model of `_handle_title_input`: store the title, derive `end_time = datetime +
1h`, run the availability check, and — because the conflict branch is the
literal `if False:` in the source — always advance to `waiting_confirmation`.
A missing `datetime` key raises `KeyError` after the in-place title store;
the dispatch boundary catches it (generic error, session left as mutated). -/
def handle_title_input (env : BotEnv) (u : Int) (text : Str)
    (flow : BookingFlow) (st : BotState) : StepResult :=
  match flow.data.datetime with
  | none =>
    { state := st.setBooking u { flow with data := { flow.data with title := some text } }
      replies := [.genericError] }
  | some start_time =>
    let end_time := start_time.addMinutes 60
    let data' := { flow.data with title := some text, endTime := some end_time }
    let _avail := check_availability env.cal start_time end_time (some u)
    if false then
      -- the disabled conflict branch (`if False:  # not is_free` in the source)
      let slots := suggest_free_slots env.cal start_time 60
      { state := st.setBooking u
          { step := flow.step, data := { data' with suggestedSlots := some slots } }
        replies := [.conflictSuggestions slots]
        availCalls := [(start_time, end_time, some u)] }
    else
      { state := st.setBooking u { step := .waitingConfirmation, data := data' }
        replies := [.bookingSummary start_time end_time text]
        availCalls := [(start_time, end_time, some u)] }

/-- The affirmative confirmation texts. -/
def yesWords : List Str :=
  [['s', 'ì'], ['s', 'i'], ['y', 'e', 's'], ['o', 'k'],
   ['c', 'o', 'n', 'f', 'e', 'r', 'm', 'a'], ['c', 'o', 'n', 'f', 'e', 'r', 'm', 'o']]

/-- The negative confirmation texts. -/
def noWords : List Str :=
  [['n', 'o'], ['a', 'n', 'n', 'u', 'l', 'l', 'a'], ['c', 'a', 'n', 'c', 'e', 'l']]

/-- The body of the affirmative confirmation branch: call
`create_appointment` with the stored title/start/end (a missing key raises,
is caught, and still falls through to the `del`); the session is deleted in
every case. -/
def commitBooking (env : BotEnv) (u : Int) (flow : BookingFlow) (st : BotState) :
    StepResult :=
  match flow.data.title, flow.data.datetime, flow.data.endTime with
  | some ti, some dt, some et =>
    let call : InsertCall :=
      { title := ti, start_time := dt, end_time := et
        description := bookingDescription (env.userInfo u), user_id := some u }
    let ev := create_appointment env.cal call.title call.start_time call.end_time
      call.description call.user_id
    { state := st.delBooking u
      replies := [if ev.isSome then .bookingCreated else .bookingCreateError]
      inserts := [call] }
  | _, _, _ => { state := st.delBooking u, replies := [.bookingCreateError] }

/-- Model of `_handle_confirmation_input`: affirmative text commits, negative text
cancels, anything else re-prompts. -/
def handle_confirmation_input (env : BotEnv) (u : Int) (text : Str)
    (flow : BookingFlow) (st : BotState) : StepResult :=
  let text_lower := pyNormalize text
  if text_lower ∈ yesWords then commitBooking env u flow st
  else if text_lower ∈ noWords then
    { state := st.delBooking u, replies := [.bookingCancelled] }
  else { state := st, replies := [.confirmationNotUnderstood] }

/-- Model of `handle_booking_flow`: dispatch on the session's step. -/
def handle_booking_flow (env : BotEnv) (now : PyDateTime) (u : Int) (text : Str)
    (flow : BookingFlow) (st : BotState) : StepResult :=
  match flow.step with
  | .waitingDatetime => handle_datetime_input now u text flow st
  | .waitingTitle => handle_title_input env u text flow st
  | .waitingConfirmation => handle_confirmation_input env u text flow st

/-- Model of `start_booking_flow`: try to resolve a datetime from the triggering text;
success starts the session at `waiting_title` with the datetime pre-filled,
failure starts it at `waiting_datetime` with empty data. -/
def start_booking_flow (now : PyDateTime) (u : Int) (text : Str) (st : BotState) :
    StepResult :=
  match parse_datetime_natural text now with
  | some dt =>
    { state := st.setBooking u
        { step := .waitingTitle
          data := { datetime := some dt, originalText := some text } }
      replies := [.bookingStartedParsed dt] }
  | none =>
    { state := st.setBooking u { step := .waitingDatetime, data := {} }
      replies := [.bookingStartedAskDatetime] }

/-- Model of `start_registration_flow`: create the registration session at
`waiting_nome` holding the Telegram display name. -/
def start_registration_flow (env : BotEnv) (u : Int) (st : BotState) : StepResult :=
  { state := st.setReg u { step := .waitingNome, telegramName := env.telegramName u }
    replies := [.registrationPrompt .waitingNome] }

/-- Model of `handle_registration_flow`: the linear six-field collection;
name/surname extraction failing re-prompts, a malformed email re-prompts,
completion persists the profile and deletes the session (also on a failed
persist). -/
def handle_registration_flow (env : BotEnv) (u : Int) (text : Str)
    (flow : RegFlow) (st : BotState) : StepResult :=
  match flow.step with
  | .waitingNome =>
    match env.extractName text with
    | none => { state := st, replies := [.registrationRetry .waitingNome] }
    | some nome =>
      { state := st.setReg u { flow with step := .waitingCognome, nome := some nome }
        replies := [.registrationPrompt .waitingCognome] }
  | .waitingCognome =>
    match env.extractName text with
    | none => { state := st, replies := [.registrationRetry .waitingCognome] }
    | some cognome =>
      { state := st.setReg u { flow with step := .waitingEmail, cognome := some cognome }
        replies := [.registrationPrompt .waitingEmail] }
  | .waitingEmail =>
    let email := (pyStrip text).map pyLower
    if '@' ∉ email ∨ '.' ∉ email then
      { state := st, replies := [.registrationRetry .waitingEmail] }
    else
      { state := st.setReg u { flow with step := .waitingTelefono, email := some email }
        replies := [.registrationPrompt .waitingTelefono] }
  | .waitingTelefono =>
    { state := st.setReg u { flow with step := .waitingVia, telefono := some (pyStrip text) }
      replies := [.registrationPrompt .waitingVia] }
  | .waitingVia =>
    { state := st.setReg u { flow with step := .waitingCitta, via := some (pyStrip text) }
      replies := [.registrationPrompt .waitingCitta] }
  | .waitingCitta =>
    if env.registerOk then
      { state := st.delReg u, replies := [.registrationDone] }
    else
      { state := st.delReg u, replies := [.registrationSaveError] }

/-- The shared tail of message processing once session checks are done:
an active booking flow consumes the text, otherwise detected booking intent
opens one, otherwise the text gets a normal conversational reply. -/
def processGeneralText (env : BotEnv) (now : PyDateTime) (u : Int) (text : Str)
    (intent : Bool) (st : BotState) : StepResult :=
  match st.booking_flows u with
  | some flow => handle_booking_flow env now u text flow st
  | none =>
    if intent then start_booking_flow now u text st
    else { state := st, replies := [.normalReply] }

/-- Model of `_process_booking_confirmation`: commit on yes (then delete the
session), cancel-and-delete on no. -/
def process_booking_confirmation (env : BotEnv) (u : Int) (flow : BookingFlow)
    (confirmed : Bool) (st : BotState) : StepResult :=
  if confirmed then commitBooking env u flow st
  else { state := st.delBooking u, replies := [.bookingCancelled] }

/-- Model of `_handle_confirmation_callback`: expired session → notice; `yes` commits
only from `waiting_confirmation`; `no` deletes the session. -/
def handle_confirmation_callback (env : BotEnv) (u : Int) (action : Str)
    (st : BotState) : StepResult :=
  match st.booking_flows u with
  | none => { state := st, replies := [.sessionExpired] }
  | some flow =>
    if action = ['y', 'e', 's'] then
      if flow.step = .waitingConfirmation then
        process_booking_confirmation env u flow true st
      else { state := st }
    else if action = ['n', 'o'] then
      { state := st.delBooking u, replies := [.bookingCancelled] }
    else { state := st }

/-- Model of `_handle_time_selection_callback`: reroute the canonical slot text into
the datetime handler (whatever the current step is). -/
def handle_time_selection_callback (now : PyDateTime) (u : Int) (slotText : Str)
    (st : BotState) : StepResult :=
  match st.booking_flows u with
  | none => { state := st, replies := [.sessionExpired] }
  | some flow => handle_datetime_input now u slotText flow st

/-- Model of `_handle_cancel_callback`: delete the booking session if present. -/
def handle_cancel_callback (u : Int) (st : BotState) : StepResult :=
  { state := st.delBooking u, replies := [.bookingCancelled] }

/-- Model of `_handle_quick_booking_callback` / `prenota_command`: open a booking
session at `waiting_datetime` with empty data. -/
def open_booking_session (u : Int) (st : BotState) : StepResult :=
  { state := st.setBooking u { step := .waitingDatetime, data := {} }
    replies := [.bookingStartedAskDatetime] }

/-- Model of `handle_inline_callback`: dispatch on the callback token. Note that the
`cancel_` prefix test precedes the `cancel_registration` equality test in the
source, so `cancel_registration` is in fact routed to the booking-cancel
handler. -/
def handle_inline_callback (env : BotEnv) (now : PyDateTime) (u : Int) (data : Str)
    (st : BotState) : StepResult :=
  if ("confirm_".data).isPrefixOf data then
    handle_confirmation_callback env u ((data.drop 8).takeWhile (· ≠ '_')) st
  else if ("time_".data).isPrefixOf data then
    handle_time_selection_callback now u (pyReplaceDel ("time_".data) data) st
  else if ("cancel_".data).isPrefixOf data then handle_cancel_callback u st
  else if data = "start_registration".data then start_registration_flow env u st
  else if data = "quick_booking".data then open_booking_session u st
  else { state := st, replies := [.menuOrInfo] }

/-- The single-keyword/stem list of `detect_booking_intent`. -/
def keywords_booking : List Str :=
  (["prenota", "appuntamento", "prenotare", "prenotazione", "fissare", "fissa",
    "meeting", "incontro", "riunione", "disponibilità", "libero", "impegnato",
    "possiamo vederci", "ci vediamo", "passo da te", "vengo da te", "facciamo insieme",
    "controllo completo", "vieni a casa", "vieni qui", "incontriamoci",
    "quando puoi venire", "quando sei disponibile", "quando puoi passare",
    "vediamoci", "faccio un salto", "risolvo tutto io", "sistemo tutto",
    "quando sei libero", "quando puoi", "voglio vederti", "dobbiamo incontrarci",
    "organizziamo", "pianifichiamo",
    "domani alle", "dopodomani alle", "lunedì alle", "martedì alle",
    "mercoledì alle", "giovedì alle", "venerdì alle", "sabato alle", "domenica alle",
    "settimana prossima", "la prossima settimana", "questo weekend",
    "voglio prenotare", "devo prenotare", "vorrei prenotare", "posso prenotare",
    "ho bisogno di", "serve un appuntamento", "mi serve",
    "assistenza", "supporto tecnico", "riparazione", "installazione", "configurazione",
    "problema pc", "problema computer", "virus", "backup", "aggiornamento",
    "formazione", "consulenza informatica", "manutenzione", "rete", "wifi",
    "software", "hardware", "sistema", "computer lento", "non funziona",
    "errore", "crash", "blocco", "schermo blu", "reinstallazione",
    "non riesco", "non so come", "non capisco", "aiutami", "mi aiuti",
    "puoi aiutarmi", "servirebbe il tuo aiuto", "vieni a vedere",
    "calendario", "agenda", "programmare", "slot", "orario",
    "consultazione", "visita", "sessione"] : List String).map String.data

/-- The multi-word phrase list of `detect_booking_intent`. -/
def booking_phrases : List Str :=
  (["voglio un appuntamento", "ho bisogno di un appuntamento", "possiamo fissare",
    "vorrei fissare", "devo fissare", "prendiamo un appuntamento",
    "fissiamo un incontro", "organizziamo un meeting", "quando ci possiamo vedere",
    "quando possiamo vederci", "sei libero", "hai tempo", "possiamo incontrarci",
    "se non funziona, possiamo vederci", "passo da te e sistemo tutto",
    "facciamo un controllo completo insieme", "vengo direttamente da te",
    "se continua così, prenotiamo", "risolvo tutto io", "sistemo tutto",
    "faccio un salto da te", "vieni a vedere", "quando vuoi che vengo",
    "preferisci che vengo", "ci vediamo e risolviamo", "incontriamoci e vediamo",
    "proviamo insieme", "ti guido al telefono o vengo da te", "quando ti va bene",
    "che ne dici di domani", "posso venire a fare", "vengo a controllare",
    "ti do una mano di persona", "facciamo insieme", "quando preferisci che passo",
    "oggi verso sera", "domani pomeriggio"] : List String).map String.data

/-- Model of `detect_booking_intent`: lowercase, then any keyword or phrase occurring
as a substring. -/
def detect_booking_intent (text : Str) : Bool :=
  let text_lower := text.map pyLower
  keywords_booking.any (hasSubstr text_lower) || booking_phrases.any (hasSubstr text_lower)

/-- Model of `handle_text_message`: an active registration flow consumes the text; an
unregistered user is sent to registration; otherwise the general
booking/intent/reply processing runs. -/
def handle_text_message (env : BotEnv) (now : PyDateTime) (u : Int) (text : Str)
    (st : BotState) : StepResult :=
  match st.registration_flows u with
  | some rflow => handle_registration_flow env u text rflow st
  | none =>
    if !env.isRegistered u then start_registration_flow env u st
    else processGeneralText env now u text (detect_booking_intent text) st

/-- Model of `handle_voice_message` after download: an empty transcription aborts;
otherwise the transcript goes straight into the general
booking/intent/reply processing — with no registration check. -/
def handle_voice_message (env : BotEnv) (now : PyDateTime) (u : Int)
    (transcript : Str) (st : BotState) : StepResult :=
  if transcript.isEmpty then { state := st, replies := [.transcriptionFailed] }
  else processGeneralText env now u transcript (detect_booking_intent transcript) st

/-- Model of `cancella_command`: drop the booking session if there is one. -/
def cancella_command (u : Int) (st : BotState) : StepResult :=
  match st.booking_flows u with
  | some _ => { state := st.delBooking u, replies := [.bookingCancelled] }
  | none => { state := st, replies := [.menuOrInfo] }

/-- Model of `profilo_command`: unregistered users are sent to registration. -/
def profilo_command (env : BotEnv) (u : Int) (st : BotState) : StepResult :=
  if !env.isRegistered u then start_registration_flow env u st
  else { state := st, replies := [.menuOrInfo] }

/-- The inbound events that touch session state. -/
inductive BotEvent
  | textMsg (text : Str)
  | voiceMsg (transcript : Str)
  | callbackQuery (data : Str)
  | prenotaCmd
  | cancellaCmd
  | profiloCmd

/-- Top-level dispatch of one inbound event for user `u`. -/
def processEvent (env : BotEnv) (now : PyDateTime) (u : Int) :
    BotEvent → BotState → StepResult
  | .textMsg t, st => handle_text_message env now u t st
  | .voiceMsg t, st => handle_voice_message env now u t st
  | .callbackQuery d, st => handle_inline_callback env now u d st
  | .prenotaCmd, st => open_booking_session u st
  | .cancellaCmd, st => cancella_command u st
  | .profiloCmd, st => profilo_command env u st

/-! ## Invariants and concrete instances used by the theorems -/

/-- The field-population invariant of a booking session: a session past
`waiting_datetime` has its datetime, and a session at `waiting_confirmation`
also has its title and end time. -/
def BookingInv (f : BookingFlow) : Prop :=
  (f.step ≠ .waitingDatetime → f.data.datetime.isSome) ∧
  (f.step = .waitingConfirmation → f.data.title.isSome ∧ f.data.endTime.isSome)

/-- Every stored booking session satisfies `BookingInv`. -/
def StateInv (st : BotState) : Prop :=
  ∀ v f, st.booking_flows v = some f → BookingInv f

/-- A bot state with no open sessions. -/
def emptyBotState : BotState := ⟨fun _ => none, fun _ => none⟩

/-- A healthy calendar collaborator with an empty calendar. -/
def okCalendar : CalendarEnv :=
  { serviceAvailable := true, listEvents := fun _ _ => .ok []
    calendarGetOk := true, insertOk := true }

/-- A collaborator environment where every user is registered. -/
def sampleEnv : BotEnv :=
  { cal := okCalendar, isRegistered := fun _ => true, userInfo := fun _ => []
    telegramName := fun _ => [], extractName := fun _ => none, registerOk := true }

/-- The same environment with no user registered. -/
def sampleEnvUnreg : BotEnv := { sampleEnv with isRegistered := fun _ => false }

/-- A reference instant: day 20000 at 10:30. -/
def nowW : PyDateTime := ⟨20000, 10, 30, 0, 0⟩

/-- A booking datetime on the following day at 15:00. -/
def dtW : PyDateTime := ⟨20001, 15, 0, 0, 0⟩

/-- Decimal value of a digit string (used to prove `natRepr` injective). -/
def decDigits (l : Str) : Nat := l.foldl (fun a c => a * 10 + (c.toNat - 48)) 0

/-! ## Claim theorems -/

/-- C1: a booking session at `waiting_title` with a resolved datetime that
receives a title and then an affirmative confirmation — whether the literal
"yes" button (`confirm_yes`, action `yes`, routed through
`_process_booking_confirmation`) or a text in the affirmation set — makes
exactly one calendar insert call: none in the title step, exactly one in the
confirmation step, whose start is the stored datetime and whose end is the
stored datetime plus 60 minutes; and the session is removed afterwards on
both paths. -/
theorem booking_roundtrip_single_insert (env : BotEnv) (now : PyDateTime) (u : Int)
    (st : BotState) (d : BookingData) (dt : PyDateTime) (titleText confirmText : Str)
    (_hflow : st.booking_flows u = some ⟨.waitingTitle, d⟩)
    (hdt : d.datetime = some dt)
    (hyes : pyNormalize confirmText ∈ yesWords) :
    (handle_booking_flow env now u titleText ⟨.waitingTitle, d⟩ st).inserts = [] ∧
    (handle_booking_flow env now u titleText ⟨.waitingTitle, d⟩ st).state.booking_flows u =
      some ⟨.waitingConfirmation,
        { d with title := some titleText, endTime := some (dt.addMinutes 60) }⟩ ∧
    (handle_booking_flow env now u confirmText
        ⟨.waitingConfirmation, { d with title := some titleText, endTime := some (dt.addMinutes 60) }⟩
        (handle_booking_flow env now u titleText ⟨.waitingTitle, d⟩ st).state).inserts =
      [{ title := titleText, start_time := dt, end_time := dt.addMinutes 60
         description := bookingDescription (env.userInfo u), user_id := some u }] ∧
    (handle_booking_flow env now u confirmText
        ⟨.waitingConfirmation, { d with title := some titleText, endTime := some (dt.addMinutes 60) }⟩
        (handle_booking_flow env now u titleText ⟨.waitingTitle, d⟩ st).state).state.booking_flows u =
      none ∧
    (handle_confirmation_callback env u (['y', 'e', 's'])
        (handle_booking_flow env now u titleText ⟨.waitingTitle, d⟩ st).state).inserts =
      [{ title := titleText, start_time := dt, end_time := dt.addMinutes 60
         description := bookingDescription (env.userInfo u), user_id := some u }] ∧
    (handle_confirmation_callback env u (['y', 'e', 's'])
        (handle_booking_flow env now u titleText ⟨.waitingTitle, d⟩ st).state).state.booking_flows u =
      none := by
  have h2 : (handle_booking_flow env now u titleText ⟨.waitingTitle, d⟩ st).state.booking_flows u =
      some ⟨.waitingConfirmation,
        { d with title := some titleText, endTime := some (dt.addMinutes 60) }⟩ := by
    simp [handle_booking_flow, handle_title_input, hdt, BotState.setBooking]
  refine ⟨?_, h2, ?_, ?_, ?_, ?_⟩
  · simp [handle_booking_flow, handle_title_input, hdt]
  · simp [handle_booking_flow, handle_confirmation_input, hyes, commitBooking, hdt]
  · simp [handle_booking_flow, handle_confirmation_input, hyes, commitBooking, hdt,
      BotState.delBooking]
  · simp only [handle_confirmation_callback, h2]
    simp [process_booking_confirmation, commitBooking, hdt]
  · simp only [handle_confirmation_callback, h2]
    simp [process_booking_confirmation, commitBooking, hdt, BotState.delBooking]

/-- C1 witness: the round trip at a concrete session, with the title
"Visita medica" confirmed once by the text "sì" and once by the yes
button. -/
theorem booking_roundtrip_single_insert_witness :
    ((emptyBotState.setBooking 5 ⟨.waitingTitle, { datetime := some dtW }⟩).booking_flows 5 =
      some ⟨.waitingTitle, { datetime := some dtW }⟩) ∧
    ({ datetime := some dtW } : BookingData).datetime = some dtW ∧
    pyNormalize ("sì".data) ∈ yesWords ∧
    ((handle_booking_flow sampleEnv nowW 5 ("Visita medica".data)
        ⟨.waitingTitle, { datetime := some dtW }⟩
        (emptyBotState.setBooking 5 ⟨.waitingTitle, { datetime := some dtW }⟩)).inserts = [] ∧
      (handle_booking_flow sampleEnv nowW 5 ("Visita medica".data)
          ⟨.waitingTitle, { datetime := some dtW }⟩
          (emptyBotState.setBooking 5 ⟨.waitingTitle, { datetime := some dtW }⟩)).state.booking_flows 5 =
        some ⟨.waitingConfirmation,
          { datetime := some dtW, title := some ("Visita medica".data)
            endTime := some (dtW.addMinutes 60) }⟩ ∧
      (handle_booking_flow sampleEnv nowW 5 ("sì".data)
          ⟨.waitingConfirmation,
            { datetime := some dtW, title := some ("Visita medica".data)
              endTime := some (dtW.addMinutes 60) }⟩
          (handle_booking_flow sampleEnv nowW 5 ("Visita medica".data)
              ⟨.waitingTitle, { datetime := some dtW }⟩
              (emptyBotState.setBooking 5 ⟨.waitingTitle, { datetime := some dtW }⟩)).state).inserts =
        [{ title := "Visita medica".data, start_time := dtW, end_time := dtW.addMinutes 60
           description := bookingDescription (sampleEnv.userInfo 5), user_id := some 5 }] ∧
      (handle_booking_flow sampleEnv nowW 5 ("sì".data)
          ⟨.waitingConfirmation,
            { datetime := some dtW, title := some ("Visita medica".data)
              endTime := some (dtW.addMinutes 60) }⟩
          (handle_booking_flow sampleEnv nowW 5 ("Visita medica".data)
              ⟨.waitingTitle, { datetime := some dtW }⟩
              (emptyBotState.setBooking 5 ⟨.waitingTitle, { datetime := some dtW }⟩)).state).state.booking_flows 5 =
        none ∧
      (handle_confirmation_callback sampleEnv 5 (['y', 'e', 's'])
          (handle_booking_flow sampleEnv nowW 5 ("Visita medica".data)
              ⟨.waitingTitle, { datetime := some dtW }⟩
              (emptyBotState.setBooking 5 ⟨.waitingTitle, { datetime := some dtW }⟩)).state).inserts =
        [{ title := "Visita medica".data, start_time := dtW, end_time := dtW.addMinutes 60
           description := bookingDescription (sampleEnv.userInfo 5), user_id := some 5 }] ∧
      (handle_confirmation_callback sampleEnv 5 (['y', 'e', 's'])
          (handle_booking_flow sampleEnv nowW 5 ("Visita medica".data)
              ⟨.waitingTitle, { datetime := some dtW }⟩
              (emptyBotState.setBooking 5 ⟨.waitingTitle, { datetime := some dtW }⟩)).state).state.booking_flows 5 =
        none) := by
  refine ⟨by decide, rfl, by decide, ?_⟩
  · have h := booking_roundtrip_single_insert sampleEnv nowW 5
      (emptyBotState.setBooking 5 ⟨.waitingTitle, { datetime := some dtW }⟩)
      { datetime := some dtW } dtW ("Visita medica".data) ("sì".data)
      (by decide) rfl (by decide)
    exact h

/-- C2: in the `waiting_confirmation` step a negative input — the "no"
button or a text in {no, annulla, cancel} — removes the booking session and
issues no calendar insert call, on both the text path and the button path. -/
theorem negative_confirmation_clears_without_insert (env : BotEnv) (u : Int)
    (st : BotState) (flow : BookingFlow) (text : Str)
    (hflow : st.booking_flows u = some flow)
    (_hstep : flow.step = .waitingConfirmation)
    (hno : pyNormalize text ∈ noWords) :
    ((handle_confirmation_input env u text flow st).state.booking_flows u = none ∧
      (handle_confirmation_input env u text flow st).inserts = []) ∧
    ((handle_confirmation_callback env u (['n', 'o']) st).state.booking_flows u = none ∧
      (handle_confirmation_callback env u (['n', 'o']) st).inserts = []) := by
  have hnotyes : pyNormalize text ∉ yesWords := by
    have hdisj : ∀ w ∈ noWords, w ∉ yesWords := by decide
    exact hdisj _ hno
  constructor
  · rw [handle_confirmation_input]
    rw [if_neg hnotyes, if_pos hno]
    simp [BotState.delBooking]
  · simp only [handle_confirmation_callback, hflow]
    rw [if_neg (show ¬((['n', 'o'] : Str) = ['y', 'e', 's']) by decide)]
    simp [BotState.delBooking]

/-- C2 witness: rejecting a concrete pending confirmation with "No". -/
theorem negative_confirmation_clears_without_insert_witness :
    ((emptyBotState.setBooking 5
        ⟨.waitingConfirmation,
          { datetime := some dtW, title := some ("Visita".data)
            endTime := some (dtW.addMinutes 60) }⟩).booking_flows 5 =
      some ⟨.waitingConfirmation,
        { datetime := some dtW, title := some ("Visita".data)
          endTime := some (dtW.addMinutes 60) }⟩) ∧
    (⟨.waitingConfirmation,
        { datetime := some dtW, title := some ("Visita".data)
          endTime := some (dtW.addMinutes 60) }⟩ : BookingFlow).step = .waitingConfirmation ∧
    pyNormalize ("No".data) ∈ noWords ∧
    (((handle_confirmation_input sampleEnv 5 ("No".data)
        ⟨.waitingConfirmation,
          { datetime := some dtW, title := some ("Visita".data)
            endTime := some (dtW.addMinutes 60) }⟩
        (emptyBotState.setBooking 5
          ⟨.waitingConfirmation,
            { datetime := some dtW, title := some ("Visita".data)
              endTime := some (dtW.addMinutes 60) }⟩)).state.booking_flows 5 = none ∧
      (handle_confirmation_input sampleEnv 5 ("No".data)
        ⟨.waitingConfirmation,
          { datetime := some dtW, title := some ("Visita".data)
            endTime := some (dtW.addMinutes 60) }⟩
        (emptyBotState.setBooking 5
          ⟨.waitingConfirmation,
            { datetime := some dtW, title := some ("Visita".data)
              endTime := some (dtW.addMinutes 60) }⟩)).inserts = []) ∧
    ((handle_confirmation_callback sampleEnv 5 (['n', 'o'])
        (emptyBotState.setBooking 5
          ⟨.waitingConfirmation,
            { datetime := some dtW, title := some ("Visita".data)
              endTime := some (dtW.addMinutes 60) }⟩)).state.booking_flows 5 = none ∧
      (handle_confirmation_callback sampleEnv 5 (['n', 'o'])
        (emptyBotState.setBooking 5
          ⟨.waitingConfirmation,
            { datetime := some dtW, title := some ("Visita".data)
              endTime := some (dtW.addMinutes 60) }⟩)).inserts = [])) :=
  ⟨by decide, rfl, by decide,
    negative_confirmation_clears_without_insert sampleEnv 5 _ _ _ (by decide) rfl (by decide)⟩

/-- C4 counterexample: with the calendar service unavailable (the error
condition of `setup_service` having failed), `check_availability` returns
`(False, [])` — the slot is reported occupied, not free — refuting the claim
that every transport/API error condition yields `(True, [])`. -/
theorem availability_service_down_not_fail_open :
    (⟨false, fun _ _ => Except.ok [], true, true⟩ : CalendarEnv).serviceAvailable = false ∧
    check_availability ⟨false, fun _ _ => Except.ok [], true, true⟩
      ⟨20000, 9, 0, 0, 0⟩ ⟨20000, 10, 0, 0, 0⟩ (some 1) = (false, []) ∧
    ((false, []) : Bool × List GEvent) ≠ (true, []) := by
  refine ⟨rfl, rfl, by decide⟩

/-- C4 amended: an error raised by the calendar API call makes
`check_availability` fail open, returning `(True, [])`; but when the
calendar service is unavailable it instead returns `(False, [])` without
querying. -/
theorem availability_error_behavior (env : CalendarEnv)
    (start_time end_time : PyDateTime) (uid : Option Int) :
    (env.serviceAvailable = true → ∀ err, env.listEvents start_time end_time = .error err →
      check_availability env start_time end_time uid = (true, [])) ∧
    (env.serviceAvailable = false →
      check_availability env start_time end_time uid = (false, [])) := by
  constructor
  · intro hsvc err herr
    simp [check_availability, hsvc, herr]
  · intro hsvc
    simp [check_availability, hsvc]

/-- C4 witness: both branches of the amended claim at concrete
environments. -/
theorem availability_error_behavior_witness :
    check_availability ⟨true, fun _ _ => Except.error CalError.httpError, true, true⟩
      ⟨20000, 9, 0, 0, 0⟩ ⟨20000, 10, 0, 0, 0⟩ (some 3) = (true, []) ∧
    check_availability ⟨false, fun _ _ => Except.ok [], true, true⟩
      ⟨20000, 9, 0, 0, 0⟩ ⟨20000, 10, 0, 0, 0⟩ (some 3) = (false, []) :=
  ⟨(availability_error_behavior _ _ _ _).1 rfl CalError.httpError rfl,
    (availability_error_behavior _ _ _ _).2 rfl⟩

/-- C5: in the `waiting_title` step, whatever the availability checker
returns (the environment is universally quantified, so in particular when it
reports a conflict), the handler performs exactly one availability query and
always advances the session to `waiting_confirmation`; the conflict
suggestions are never emitted and no insert happens here. -/
theorem title_step_ignores_conflicts (env : BotEnv) (u : Int) (text : Str)
    (st : BotState) (flow : BookingFlow) (dt : PyDateTime)
    (_hflow : st.booking_flows u = some flow)
    (_hstep : flow.step = .waitingTitle)
    (hdt : flow.data.datetime = some dt) :
    (handle_title_input env u text flow st).state.booking_flows u =
      some ⟨.waitingConfirmation,
        { flow.data with title := some text, endTime := some (dt.addMinutes 60) }⟩ ∧
    (handle_title_input env u text flow st).availCalls = [(dt, dt.addMinutes 60, some u)] ∧
    (handle_title_input env u text flow st).replies =
      [.bookingSummary dt (dt.addMinutes 60) text] ∧
    (handle_title_input env u text flow st).inserts = [] := by
  refine ⟨?_, ?_, ?_, ?_⟩ <;> simp [handle_title_input, hdt, BotState.setBooking]

/-- C5 witness: a conflicting calendar (the availability checker returns
occupied) still advances a concrete session to `waiting_confirmation`. -/
theorem title_step_ignores_conflicts_witness :
    ((emptyBotState.setBooking 5 ⟨.waitingTitle, { datetime := some dtW }⟩).booking_flows 5 =
      some ⟨.waitingTitle, { datetime := some dtW }⟩) ∧
    (⟨.waitingTitle, { datetime := some dtW }⟩ : BookingFlow).step = .waitingTitle ∧
    (⟨.waitingTitle, { datetime := some dtW }⟩ : BookingFlow).data.datetime = some dtW ∧
    (check_availability
        ⟨true, fun _ _ => Except.ok [⟨[], ("[USER_ID:5] x".data)⟩], true, true⟩
        dtW (dtW.addMinutes 60) (some 5)).1 = false ∧
    (handle_title_input
        { sampleEnv with
            cal := ⟨true, fun _ _ => Except.ok [⟨[], ("[USER_ID:5] x".data)⟩], true, true⟩ }
        5 ("Visita".data) ⟨.waitingTitle, { datetime := some dtW }⟩
        (emptyBotState.setBooking 5 ⟨.waitingTitle, { datetime := some dtW }⟩)).state.booking_flows 5 =
      some ⟨.waitingConfirmation,
        { datetime := some dtW, title := some ("Visita".data)
          endTime := some (dtW.addMinutes 60) }⟩ := by
  refine ⟨by decide, rfl, rfl, by decide, ?_⟩
  exact (title_step_ignores_conflicts
    { sampleEnv with
        cal := ⟨true, fun _ _ => Except.ok [⟨[], ("[USER_ID:5] x".data)⟩], true, true⟩ }
    5 ("Visita".data) _ _ dtW (by decide) rfl rfl).1

/-- C6: in the `waiting_datetime` step, an input resolving to an instant
strictly before `now` produces the date-in-the-past reply and leaves the
whole session state untouched. -/
theorem past_datetime_rejected_no_change (now : PyDateTime) (u : Int) (text : Str)
    (st : BotState) (flow : BookingFlow) (dt : PyDateTime)
    (_hflow : st.booking_flows u = some flow)
    (_hstep : flow.step = .waitingDatetime)
    (hparse : parse_datetime_natural text now = some dt)
    (hpast : dt < now) :
    handle_datetime_input now u text flow st =
      { state := st, replies := [.pastDate] } := by
  simp only [handle_datetime_input, hparse]
  rw [if_pos hpast]

/-- C6 witness: "oggi" said at 10:30 resolves to 09:00 the same day, which
is in the past; the session map is left untouched. -/
theorem past_datetime_rejected_no_change_witness :
    ((emptyBotState.setBooking 5 ⟨.waitingDatetime, {}⟩).booking_flows 5 =
      some ⟨.waitingDatetime, {}⟩) ∧
    (⟨.waitingDatetime, {}⟩ : BookingFlow).step = .waitingDatetime ∧
    parse_datetime_natural ("oggi".data) nowW = some (⟨20000, 9, 0, 0, 0⟩ : PyDateTime) ∧
    (⟨20000, 9, 0, 0, 0⟩ : PyDateTime) < nowW ∧
    handle_datetime_input nowW 5 ("oggi".data) ⟨.waitingDatetime, {}⟩
        (emptyBotState.setBooking 5 ⟨.waitingDatetime, {}⟩) =
      { state := emptyBotState.setBooking 5 ⟨.waitingDatetime, {}⟩
        replies := [.pastDate] } :=
  ⟨by decide, rfl, by decide, by decide,
    past_datetime_rejected_no_change nowW 5 ("oggi".data) _ _
      (⟨20000, 9, 0, 0, 0⟩ : PyDateTime) (by decide) rfl (by decide) (by decide)⟩

/-- Arithmetic core of the weekday branch: the computed day offset is in
[1,7], the target weekday is hit, 09:00 is set, and a same-weekday `now`
rolls a full week forward. -/
theorem nextWeekdayDate_spec (now : PyDateTime) (w : Nat) (hw : w ≤ 6) :
    (1 ≤ (nextWeekdayDate now w).days - now.days ∧
      (nextWeekdayDate now w).days - now.days ≤ 7) ∧
    (nextWeekdayDate now w).hour = 9 ∧ (nextWeekdayDate now w).minute = 0 ∧
    (nextWeekdayDate now w).weekday = w ∧
    (w = now.weekday → (nextWeekdayDate now w).days = now.days + 7) := by
  have h0 : 0 ≤ (now.days + 3) % 7 := Int.emod_nonneg _ (by norm_num)
  have h1 : (now.days + 3) % 7 < 7 := Int.emod_lt_of_pos _ (by norm_num)
  have hwd : (now.weekday : Int) = (now.days + 3) % 7 := by
    unfold PyDateTime.weekday
    exact Int.toNat_of_nonneg h0
  have hdays : (nextWeekdayDate now w).days =
      now.days + (if (w : Int) - (now.weekday : Int) ≤ 0 then
        (w : Int) - (now.weekday : Int) + 7 else (w : Int) - (now.weekday : Int)) := rfl
  have hwk : (nextWeekdayDate now w).weekday =
      (((nextWeekdayDate now w).days + 3).emod 7).toNat := rfl
  have hwk2 : ((nextWeekdayDate now w).weekday : Int) =
      ((nextWeekdayDate now w).days + 3) % 7 := by
    unfold PyDateTime.weekday
    exact Int.toNat_of_nonneg (Int.emod_nonneg _ (by norm_num))
  rw [hwd] at hdays
  clear hwk
  split_ifs at hdays with hc <;>
    refine ⟨⟨by omega, by omega⟩, rfl, rfl, by omega, fun hweq => ?_⟩ <;>
    · have he : (w : Int) = (now.days + 3) % 7 := by rw [hweq]; exact hwd
      omega

/-- C7: when no date-anchor pattern matched and the weekday scan fires, the
resolved date is the next occurrence of a weekday name contained in the
text, strictly in the future — between 1 and 7 days ahead, a full week when
the named weekday equals today's — anchored at 09:00, and the resolver
output keeps exactly that date. -/
theorem weekday_scan_strictly_future (t : Str) (now : PyDateTime)
    (hanchor : dateAnchors t now = none) (d : PyDateTime)
    (hscan : weekdayScan t now = some d) :
    (1 ≤ d.days - now.days ∧ d.days - now.days ≤ 7) ∧
    d.hour = 9 ∧ d.minute = 0 ∧
    (∃ p ∈ giorni, hasSubstr t p.1 = true ∧ d.weekday = p.2 ∧
      (p.2 = now.weekday → d.days = now.days + 7)) ∧
    (∀ d', parse_core t now = some d' → d'.days = d.days) := by
  obtain ⟨p, hp, hf⟩ := List.exists_of_findSome?_eq_some hscan
  have hsub : hasSubstr t p.1 = true := by
    by_contra hc
    simp [hc] at hf
  rw [if_pos hsub] at hf
  have hd : d = nextWeekdayDate now p.2 := by exact (Option.some.inj hf).symm
  have hw : p.2 ≤ 6 := by
    simp only [giorni, List.mem_cons, List.not_mem_nil, or_false] at hp
    rcases hp with h|h|h|h|h|h|h <;> simp [h]
  have hs := nextWeekdayDate_spec now p.2 hw
  subst hd
  refine ⟨hs.1, hs.2.1, hs.2.2.1, ⟨p, hp, hsub, hs.2.2.2.1, hs.2.2.2.2⟩, ?_⟩
  intro d' hd'
  rw [parse_core] at hd'
  rw [hanchor] at hd'
  simp only [hscan] at hd'
  rcases h : timeScan t with _ | hm
  · rw [h] at hd'
    simp at hd'
    rw [← hd']
  · rw [h] at hd'
    simp at hd'
    rw [← hd']
    rfl

/-- C7 witness: parsing "lunedì alle 10:30" when `now` (day 20003) is a
Monday: the anchor scan fails, the weekday scan fires, and the result is the
following Monday (day 20010), 1–7 days ahead, at 10:30 after the time
overwrite. -/
theorem weekday_scan_strictly_future_witness :
    dateAnchors (pyNormalize ("lunedì alle 10:30".data)) (⟨20003, 9, 0, 0, 0⟩ : PyDateTime) =
      none ∧
    weekdayScan (pyNormalize ("lunedì alle 10:30".data)) (⟨20003, 9, 0, 0, 0⟩ : PyDateTime) =
      some (⟨20010, 9, 0, 0, 0⟩ : PyDateTime) ∧
    (⟨20003, 9, 0, 0, 0⟩ : PyDateTime).weekday = 0 ∧
    (1 ≤ (⟨20010, 9, 0, 0, 0⟩ : PyDateTime).days - (⟨20003, 9, 0, 0, 0⟩ : PyDateTime).days ∧
      (⟨20010, 9, 0, 0, 0⟩ : PyDateTime).days - (⟨20003, 9, 0, 0, 0⟩ : PyDateTime).days ≤ 7) ∧
    parse_datetime_natural ("lunedì alle 10:30".data) (⟨20003, 9, 0, 0, 0⟩ : PyDateTime) =
      some (⟨20010, 10, 30, 0, 0⟩ : PyDateTime) := by
  have hA : dateAnchors (pyNormalize ("lunedì alle 10:30".data))
      (⟨20003, 9, 0, 0, 0⟩ : PyDateTime) = none := by decide
  have hS : weekdayScan (pyNormalize ("lunedì alle 10:30".data))
      (⟨20003, 9, 0, 0, 0⟩ : PyDateTime) = some (⟨20010, 9, 0, 0, 0⟩ : PyDateTime) := by decide
  have h := weekday_scan_strictly_future _ _ hA _ hS
  exact ⟨hA, hS, by decide, h.1, by decide⟩

/-- C8 counterexample: in "oggi 25:70 alle 14" the first time pattern
`HH:MM` matches the out-of-range 25:70, yet the resolver does not keep the
09:00 default: the scan falls through to `alle 14` and returns 14:00. -/
theorem out_of_range_time_not_defaulted :
    reSearch matchHMAt (pyNormalize ("oggi 25:70 alle 14".data)) = some (25, 70) ∧
    timeInRange (25, 70) = false ∧
    parse_datetime_natural ("oggi 25:70 alle 14".data) (⟨20000, 8, 0, 0, 0⟩ : PyDateTime) =
      some (⟨20000, 14, 0, 0, 0⟩ : PyDateTime) ∧
    (⟨20000, 14, 0, 0, 0⟩ : PyDateTime).hour ≠ 9 := by
  refine ⟨by decide, by decide, by decide, by decide⟩

/-- C8 amended: with a resolved date anchor, a time scan that yields a pair
does so only within 0–23/0–59 and overwrites the anchor's hour/minute; an
out-of-range match of the `HH:MM` pattern is silently skipped, with the scan
falling through to the remaining two patterns; the 09:00 anchor default
survives exactly when the whole scan yields nothing. -/
theorem time_scan_overwrite_or_fallthrough (t : Str) (now : PyDateTime) (d : PyDateTime)
    (hanchor : (dateAnchors t now).or (weekdayScan t now) = some d) :
    (∀ h m, timeScan t = some (h, m) → (h ≤ 23 ∧ m ≤ 59) ∧
      parse_core t now = some (d.replaceHM h m)) ∧
    (timeScan t = none → parse_core t now = some d) ∧
    (∀ h m, reSearch matchHMAt t = some (h, m) → timeInRange (h, m) = false →
      timeScan t = ([reSearch matchOreAt t, reSearch matchAlleAt t].findSome? fun r =>
        match r with
        | some hm => if timeInRange hm then some hm else none
        | none => none)) := by
  have hp : parse_core t now = (match timeScan t with
      | some hm => some (d.replaceHM hm.1 hm.2)
      | none => some d) := by
    cases hA : dateAnchors t now with
    | some x =>
      rw [hA, Option.or_some] at hanchor
      have hx := Option.some.inj hanchor
      subst hx
      simp only [parse_core, hA]
    | none =>
      rw [hA, Option.none_or] at hanchor
      simp only [parse_core, hA, hanchor]
  refine ⟨?_, ?_, ?_⟩
  · intro h m hts
    constructor
    · obtain ⟨r, _hrmem, hr⟩ := List.exists_of_findSome?_eq_some hts
      cases r with
      | none => simp at hr
      | some hm =>
        have hr' : (if timeInRange hm = true then some hm else none) = some (h, m) := hr
        by_cases hir : timeInRange hm = true
        · rw [if_pos hir] at hr'
          have := Option.some.inj hr'
          subst this
          simpa [timeInRange] using hir
        · rw [if_neg hir] at hr'
          simp at hr'
    · rw [hp, hts]
  · intro hts
    rw [hp, hts]
  · intro h m hhm hrange
    simp only [timeScan, List.findSome?_cons, hhm, hrange]
    simp

/-- C8 witness: "domani alle 15:00" resolves the anchor to tomorrow 09:00
and the in-range time 15:00 overwrites the default. -/
theorem time_scan_overwrite_or_fallthrough_witness :
    ((dateAnchors (pyNormalize ("domani alle 15:00".data)) nowW).or
      (weekdayScan (pyNormalize ("domani alle 15:00".data)) nowW)) =
      some (⟨20001, 9, 0, 0, 0⟩ : PyDateTime) ∧
    timeScan (pyNormalize ("domani alle 15:00".data)) = some (15, 0) ∧
    ((15 ≤ 23 ∧ 0 ≤ 59) ∧
      parse_core (pyNormalize ("domani alle 15:00".data)) nowW =
        some ((⟨20001, 9, 0, 0, 0⟩ : PyDateTime).replaceHM 15 0)) := by
  have hA : ((dateAnchors (pyNormalize ("domani alle 15:00".data)) nowW).or
      (weekdayScan (pyNormalize ("domani alle 15:00".data)) nowW)) =
      some (⟨20001, 9, 0, 0, 0⟩ : PyDateTime) := by decide
  have hT : timeScan (pyNormalize ("domani alle 15:00".data)) = some (15, 0) := by decide
  exact ⟨hA, hT, (time_scan_overwrite_or_fallthrough _ nowW _ hA).1 15 0 hT⟩

/-- A prefix occurrence is a substring occurrence. -/
theorem hasSubstr_of_isPrefixOf (n hay : Str) (h : n.isPrefixOf hay = true) :
    hasSubstr hay n = true := by
  rw [hasSubstr.eq_def, h, Bool.true_or]

/-- Every character of `natReprAux` is a decimal digit. -/
theorem natReprAux_digits (fuel : Nat) :
    ∀ n c, c ∈ natReprAux fuel n → '0' ≤ c ∧ c ≤ '9' := by
  induction fuel with
  | zero => intro n c hc; simp [natReprAux] at hc
  | succ f ih =>
    intro n c hc
    rw [natReprAux] at hc
    split_ifs at hc with h
    · simp only [List.mem_singleton] at hc
      subst hc
      interval_cases n <;> exact ⟨by decide, by decide⟩
    · rw [List.mem_append, List.mem_singleton] at hc
      rcases hc with hc | hc
      · exact ih _ _ hc
      · subst hc
        have h10 : n % 10 < 10 := Nat.mod_lt _ (by norm_num)
        generalize n % 10 = k at h10 ⊢
        interval_cases k <;> exact ⟨by decide, by decide⟩

/-- Every character of `natRepr` is a decimal digit. -/
theorem natRepr_digits (n : Nat) (c : Char) (hc : c ∈ natRepr n) :
    '0' ≤ c ∧ c ≤ '9' := natReprAux_digits _ _ _ hc

/-- Decoding inverts `natReprAux` when the fuel is sufficient. -/
theorem natReprAux_decode (fuel : Nat) :
    ∀ n, n < fuel → decDigits (natReprAux fuel n) = n := by
  induction fuel with
  | zero => omega
  | succ f ih =>
    intro n hn
    rw [natReprAux]
    split_ifs with h
    · rw [decDigits]
      simp only [List.foldl_cons, List.foldl_nil]
      have hch : (Char.ofNat (48 + n)).toNat = 48 + n := by interval_cases n <;> rfl
      omega
    · have hdiv : n / 10 < f := by
        have h1 := Nat.div_lt_self (show 0 < n by omega) (show 1 < 10 by norm_num)
        omega
      have hrec := ih (n / 10) hdiv
      rw [decDigits] at hrec ⊢
      rw [List.foldl_append]
      simp only [List.foldl_cons, List.foldl_nil]
      have h10 : n % 10 < 10 := Nat.mod_lt _ (by norm_num)
      have hch : (Char.ofNat (48 + n % 10)).toNat = 48 + n % 10 := by
        generalize n % 10 = k at h10 ⊢
        interval_cases k <;> rfl
      rw [hrec, hch]
      omega

/-- Python decimal printing of naturals is injective. -/
theorem natRepr_inj {a b : Nat} (h : natRepr a = natRepr b) : a = b := by
  have ha : decDigits (natRepr a) = a := natReprAux_decode (a + 1) a (by omega)
  have hb : decDigits (natRepr b) = b := natReprAux_decode (b + 1) b (by omega)
  rw [h] at ha
  omega

/-- The digit string of a natural is never empty. -/
theorem natRepr_ne_nil (n : Nat) : natRepr n ≠ [] := by
  rw [natRepr, natReprAux]
  split_ifs <;> simp

/-- Every character of `intRepr` is a digit or the minus sign. -/
theorem intRepr_chars (i : Int) (c : Char) (hc : c ∈ intRepr i) :
    c = '-' ∨ ('0' ≤ c ∧ c ≤ '9') := by
  rw [intRepr] at hc
  split_ifs at hc with h
  · rcases List.mem_cons.mp hc with hc | hc
    · exact Or.inl hc
    · exact Or.inr (natRepr_digits _ _ hc)
  · exact Or.inr (natRepr_digits _ _ hc)

/-- The minus sign is not a digit character. -/
theorem minus_not_mem_natRepr (n : Nat) : '-' ∉ natRepr n := by
  intro hm
  rcases natRepr_digits _ _ hm with ⟨h1, _⟩
  exact absurd h1 (by decide)

/-- Python decimal printing of integers is injective. -/
theorem intRepr_inj {a b : Int} (h : intRepr a = intRepr b) : a = b := by
  rw [intRepr, intRepr] at h
  split_ifs at h with ha hb hb
  · have hn := natRepr_inj (List.cons.inj h).2
    omega
  · exact absurd (h ▸ List.mem_cons_self '-' _) (minus_not_mem_natRepr _)
  · exact absurd (h.symm ▸ List.mem_cons_self '-' _) (minus_not_mem_natRepr _)
  · have hn := natRepr_inj h
    omega

/-- Occurrence analysis: a needle starting with `'['` found inside `x ++ d`,
where `'['` occurs in `x` only at its head, is either a prefix occurrence or
lies wholly inside `d`. -/
theorem hasSubstr_append_bracket (n : Str) (nt : Str) (hn : n = '[' :: nt) :
    ∀ x d : Str, '[' ∉ x.tail → hasSubstr (x ++ d) n = true →
      n.isPrefixOf (x ++ d) = true ∨ hasSubstr d n = true := by
  intro x
  induction x with
  | nil =>
    intro d _ h
    exact Or.inr (by simpa using h)
  | cons c x' ih =>
    intro d hx h
    rw [hasSubstr.eq_def] at h
    rcases (Bool.or_eq_true _ _).mp h with h1 | h1
    · exact Or.inl h1
    · have hx' : '[' ∉ x'.tail := fun hc => hx (List.tail_subset x' hc)
      rcases ih d hx' h1 with h2 | h2
      · cases x' with
        | nil => exact Or.inr (hasSubstr_of_isPrefixOf _ _ (by simpa using h2))
        | cons c' x'' =>
          subst hn
          rw [List.isPrefixOf_iff_prefix, List.cons_append, List.cons_prefix_cons] at h2
          exact absurd (h2.1.symm ▸ List.mem_cons_self c' x'') hx
      · exact Or.inr h2

/-- Two digit strings followed by `']'` that prefix-align are equal. -/
theorem digits_bracket_prefix_eq :
    ∀ a b x y : Str, ']' ∉ a → ']' ∉ b →
      (a ++ ']' :: x) <+: (b ++ ']' :: y) → a = b := by
  intro a
  induction a with
  | nil =>
    intro b x y _ hb h
    cases b with
    | nil => rfl
    | cons c b' =>
      exfalso
      rw [List.nil_append, List.cons_append, List.cons_prefix_cons] at h
      exact hb (h.1 ▸ List.mem_cons_self c b')
  | cons c a' ih =>
    intro b x y ha hb h
    cases b with
    | nil =>
      exfalso
      rw [List.cons_append, List.nil_append, List.cons_prefix_cons] at h
      exact ha (h.1.symm ▸ List.mem_cons_self c a')
    | cons c' b' =>
      rw [List.cons_append, List.cons_append, List.cons_prefix_cons] at h
      have ha' : ']' ∉ a' := fun hc => ha (List.mem_cons_of_mem _ hc)
      have hb' : ']' ∉ b' := fun hc => hb (List.mem_cons_of_mem _ hc)
      rw [h.1, ih b' x y ha' hb' h.2]

/-- A prefix-aligned owner tag pins down the user id. -/
theorem ownerTag_prefix_inj (u v : Int) (rest : Str)
    (h : (ownerTag u).isPrefixOf (ownerTag v ++ rest) = true) : u = v := by
  rw [List.isPrefixOf_iff_prefix] at h
  rw [ownerTag, ownerTag] at h
  simp only [List.append_assoc, List.singleton_append] at h
  rw [List.prefix_append_right_inj] at h
  have hbu : ']' ∉ intRepr u := by
    intro hc
    rcases intRepr_chars _ _ hc with hc1 | hc1
    · exact absurd hc1 (by decide)
    · exact absurd hc1 (by decide)
  have hbv : ']' ∉ intRepr v := by
    intro hc
    rcases intRepr_chars _ _ hc with hc1 | hc1
    · exact absurd hc1 (by decide)
    · exact absurd hc1 (by decide)
  exact intRepr_inj (digits_bracket_prefix_eq _ _ _ _ hbu hbv h)

/-- An event tagged for another user `v ≠ u` (its description is `v`'s owner
tag followed by content free of `u`'s tag) never contains `u`'s owner tag. -/
theorem other_user_tag_not_found (u v : Int) (rest : Str) (hne : u ≠ v)
    (hrest : hasSubstr rest (ownerTag u) = false) :
    hasSubstr (ownerTag v ++ rest) (ownerTag u) = false := by
  by_contra hc
  have ht : hasSubstr (ownerTag v ++ rest) (ownerTag u) = true := by
    revert hc
    cases hasSubstr (ownerTag v ++ rest) (ownerTag u) <;> simp
  have htail : '[' ∉ (ownerTag v).tail := by
    intro hm
    have hm' : '[' ∈ (['U', 'S', 'E', 'R', '_', 'I', 'D', ':'] ++ intRepr v) ++ [']'] := hm
    rcases List.mem_append.mp hm' with hm1 | hm1
    · rcases List.mem_append.mp hm1 with hm2 | hm2
      · exact absurd hm2 (by decide)
      · rcases intRepr_chars _ _ hm2 with h1 | h1
        · exact absurd h1 (by decide)
        · exact absurd h1 (by decide)
    · exact absurd hm1 (by decide)
  rcases hasSubstr_append_bracket (ownerTag u)
      ((['U', 'S', 'E', 'R', '_', 'I', 'D', ':'] ++ intRepr u) ++ [']']) rfl
      (ownerTag v) rest htail ht with hpre | hsub
  · exact hne (ownerTag_prefix_inj u v rest hpre)
  · rw [hsub] at hrest
    cases hrest

/-- C3: with the service up and the query answered, the availability check
scoped to user `u` counts only events whose description carries `u`'s owner
tag; consequently, when every listed event belongs to some other user —
its description is another user's tag followed by content free of `u`'s
tag, as `create_appointment` builds it — the slot is reported free with no
conflicts, so overlapping appointments of two distinct users never
conflict. -/
theorem availability_scoped_per_user (env : CalendarEnv) (s e : PyDateTime) (u : Int)
    (hu : u ≠ 0) (evs : List GEvent) (hsvc : env.serviceAvailable = true)
    (hlist : env.listEvents s e = .ok evs) :
    (∀ ev ∈ (check_availability env s e (some u)).2,
      hasSubstr ev.description (ownerTag u) = true) ∧
    ((∀ ev ∈ evs, ∃ v rest, v ≠ u ∧ ev.description = ownerTag v ++ rest ∧
        hasSubstr rest (ownerTag u) = false) →
      check_availability env s e (some u) = (true, [])) := by
  have htruthy : uidTruthy (some u) = true := by
    simp [uidTruthy, bne_iff_ne, hu]
  have hck : check_availability env s e (some u) =
      ((evs.filter fun ev => hasSubstr ev.description (ownerTag u)).isEmpty,
        evs.filter fun ev => hasSubstr ev.description (ownerTag u)) := by
    simp [check_availability, hsvc, hlist, htruthy]
  constructor
  · intro ev hev
    rw [hck] at hev
    exact (List.mem_filter.mp hev).2
  · intro hall
    have hnil : evs.filter (fun ev => hasSubstr ev.description (ownerTag u)) = [] := by
      rw [List.filter_eq_nil_iff]
      intro ev hev
      obtain ⟨v, rest, hvne, hdesc, hrest⟩ := hall ev hev
      rw [hdesc, other_user_tag_not_found u v rest (fun h => hvne h.symm) hrest]
      simp
    rw [hck, hnil]
    rfl

/-- C3 witness: user 1's availability check against a calendar holding only
an overlapping event of user 2 reports the slot free with no conflicts. -/
theorem availability_scoped_per_user_witness :
    (1 : Int) ≠ 0 ∧
    (⟨true, fun _ _ => Except.ok [⟨[], ("[USER_ID:2] x".data)⟩], true, true⟩ :
        CalendarEnv).serviceAvailable = true ∧
    check_availability
      ⟨true, fun _ _ => Except.ok [⟨[], ("[USER_ID:2] x".data)⟩], true, true⟩
      nowW (nowW.addMinutes 60) (some 1) = (true, []) := by
  refine ⟨by decide, rfl, ?_⟩
  refine (availability_scoped_per_user _ nowW (nowW.addMinutes 60) 1 (by decide)
    [⟨[], ("[USER_ID:2] x".data)⟩] rfl rfl).2 ?_
  intro ev hev
  rw [List.mem_singleton] at hev
  subst hev
  refine ⟨2, (" x".data), by decide, by decide, by decide⟩

/-- Setting a session satisfying the invariant preserves the state
invariant. -/
theorem stateInv_setBooking {st : BotState} {u : Int} {f : BookingFlow}
    (hinv : StateInv st) (hf : BookingInv f) : StateInv (st.setBooking u f) := by
  intro v g hg
  simp only [BotState.setBooking] at hg
  split at hg
  · cases hg
    exact hf
  · exact hinv v g hg

/-- Deleting a session preserves the state invariant. -/
theorem stateInv_delBooking {st : BotState} {u : Int}
    (hinv : StateInv st) : StateInv (st.delBooking u) := by
  intro v g hg
  simp only [BotState.delBooking] at hg
  split at hg
  · cases hg
  · exact hinv v g hg

/-- Registration-map updates leave the booking map untouched. -/
theorem stateInv_setReg {st : BotState} {u : Int} {r : RegFlow}
    (hinv : StateInv st) : StateInv (st.setReg u r) :=
  fun v g hg => hinv v g hg

/-- Deleting a registration session leaves the booking map untouched. -/
theorem stateInv_delReg {st : BotState} {u : Int}
    (hinv : StateInv st) : StateInv (st.delReg u) :=
  fun v g hg => hinv v g hg

/-- The datetime handler preserves the invariant. -/
theorem stateInv_handle_datetime_input (now : PyDateTime) (u : Int) (text : Str)
    (flow : BookingFlow) (st : BotState) (hinv : StateInv st) :
    StateInv (handle_datetime_input now u text flow st).state := by
  rw [handle_datetime_input]
  cases hp : parse_datetime_natural text now with
  | none => exact hinv
  | some dt =>
    dsimp only
    split_ifs
    · exact hinv
    · exact stateInv_setBooking hinv ⟨fun _ => by simp, fun h => by cases h⟩

/-- The title handler preserves the invariant for a session that satisfies
it and sits at `waiting_title`. -/
theorem stateInv_handle_title_input (env : BotEnv) (u : Int) (text : Str)
    (flow : BookingFlow) (st : BotState) (hinv : StateInv st)
    (hflow : BookingInv flow) (hstep : flow.step = .waitingTitle) :
    StateInv (handle_title_input env u text flow st).state := by
  rw [handle_title_input]
  cases hd : flow.data.datetime with
  | none =>
    exfalso
    have hs := hflow.1 (by rw [hstep]; exact fun h => by cases h)
    rw [hd] at hs
    cases hs
  | some start =>
    dsimp only
    exact stateInv_setBooking hinv
      ⟨fun _ => by simp [hd], fun _ => ⟨by simp, by simp⟩⟩

/-- The commit path always deletes the session, preserving the invariant. -/
theorem stateInv_commitBooking (env : BotEnv) (u : Int) (flow : BookingFlow)
    (st : BotState) (hinv : StateInv st) :
    StateInv (commitBooking env u flow st).state := by
  rw [commitBooking]
  cases flow.data.title <;> cases flow.data.datetime <;> cases flow.data.endTime <;>
    exact stateInv_delBooking hinv

/-- The confirmation handler preserves the invariant. -/
theorem stateInv_handle_confirmation_input (env : BotEnv) (u : Int) (text : Str)
    (flow : BookingFlow) (st : BotState) (hinv : StateInv st) :
    StateInv (handle_confirmation_input env u text flow st).state := by
  rw [handle_confirmation_input]
  split_ifs
  · exact stateInv_commitBooking env u flow st hinv
  · exact stateInv_delBooking hinv
  · exact hinv

/-- The step dispatcher preserves the invariant for a stored session. -/
theorem stateInv_handle_booking_flow (env : BotEnv) (now : PyDateTime) (u : Int)
    (text : Str) (flow : BookingFlow) (st : BotState) (hinv : StateInv st)
    (hflow : BookingInv flow) :
    StateInv (handle_booking_flow env now u text flow st).state := by
  rcases flow with ⟨step, data⟩
  cases step with
  | waitingDatetime => exact stateInv_handle_datetime_input now u text _ st hinv
  | waitingTitle => exact stateInv_handle_title_input env u text _ st hinv hflow rfl
  | waitingConfirmation => exact stateInv_handle_confirmation_input env u text _ st hinv

/-- Opening a session from the triggering text preserves the invariant. -/
theorem stateInv_start_booking_flow (now : PyDateTime) (u : Int) (text : Str)
    (st : BotState) (hinv : StateInv st) :
    StateInv (start_booking_flow now u text st).state := by
  rw [start_booking_flow]
  cases parse_datetime_natural text now with
  | none => exact stateInv_setBooking hinv ⟨fun h => absurd rfl h, fun h => by cases h⟩
  | some dt => exact stateInv_setBooking hinv ⟨fun _ => by simp, fun h => by cases h⟩

/-- The shared booking/intent/reply tail preserves the invariant. -/
theorem stateInv_processGeneralText (env : BotEnv) (now : PyDateTime) (u : Int)
    (text : Str) (intent : Bool) (st : BotState) (hinv : StateInv st) :
    StateInv (processGeneralText env now u text intent st).state := by
  rw [processGeneralText]
  cases hb : st.booking_flows u with
  | some flow => exact stateInv_handle_booking_flow env now u text flow st hinv (hinv u flow hb)
  | none =>
    split_ifs
    · exact stateInv_start_booking_flow now u text st hinv
    · exact hinv

/-- The registration handler never touches the booking map. -/
theorem stateInv_handle_registration_flow (env : BotEnv) (u : Int) (text : Str)
    (rflow : RegFlow) (st : BotState) (hinv : StateInv st) :
    StateInv (handle_registration_flow env u text rflow st).state := by
  rw [handle_registration_flow]
  rcases rflow with ⟨step, tn, nome, cognome, email, telefono, via⟩
  cases step
  case waitingNome =>
    dsimp only
    cases env.extractName text
    · exact hinv
    · exact stateInv_setReg hinv
  case waitingCognome =>
    dsimp only
    cases env.extractName text
    · exact hinv
    · exact stateInv_setReg hinv
  case waitingEmail =>
    dsimp only
    split_ifs
    · exact hinv
    · exact stateInv_setReg hinv
  case waitingTelefono => exact stateInv_setReg hinv
  case waitingVia => exact stateInv_setReg hinv
  case waitingCitta =>
    dsimp only
    split_ifs
    · exact stateInv_delReg hinv
    · exact stateInv_delReg hinv

/-- The yes/no confirmation path always deletes or keeps, preserving the
invariant. -/
theorem stateInv_process_booking_confirmation (env : BotEnv) (u : Int)
    (flow : BookingFlow) (confirmed : Bool) (st : BotState) (hinv : StateInv st) :
    StateInv (process_booking_confirmation env u flow confirmed st).state := by
  rw [process_booking_confirmation]
  split_ifs
  · exact stateInv_commitBooking env u flow st hinv
  · exact stateInv_delBooking hinv

/-- The confirmation button handler preserves the invariant. -/
theorem stateInv_handle_confirmation_callback (env : BotEnv) (u : Int)
    (action : Str) (st : BotState) (hinv : StateInv st) :
    StateInv (handle_confirmation_callback env u action st).state := by
  rw [handle_confirmation_callback]
  cases st.booking_flows u with
  | none => exact hinv
  | some flow =>
    dsimp only
    split_ifs
    · exact stateInv_process_booking_confirmation env u flow true st hinv
    · exact hinv
    · exact stateInv_delBooking hinv
    · exact hinv

/-- The time-selection button handler preserves the invariant. -/
theorem stateInv_handle_time_selection_callback (now : PyDateTime) (u : Int)
    (slotText : Str) (st : BotState) (hinv : StateInv st) :
    StateInv (handle_time_selection_callback now u slotText st).state := by
  rw [handle_time_selection_callback]
  cases st.booking_flows u with
  | none => exact hinv
  | some flow => exact stateInv_handle_datetime_input now u slotText flow st hinv

/-- The inline-callback dispatcher preserves the invariant. -/
theorem stateInv_handle_inline_callback (env : BotEnv) (now : PyDateTime) (u : Int)
    (data : Str) (st : BotState) (hinv : StateInv st) :
    StateInv (handle_inline_callback env now u data st).state := by
  rw [handle_inline_callback]
  split_ifs
  · exact stateInv_handle_confirmation_callback env u _ st hinv
  · exact stateInv_handle_time_selection_callback now u _ st hinv
  · exact stateInv_delBooking hinv
  · exact stateInv_setReg hinv
  · exact stateInv_setBooking hinv ⟨fun h => absurd rfl h, fun h => by cases h⟩
  · exact hinv

/-- C9: the step enum strictly orders field population — every transition of
the modelled system maps states whose stored sessions have `dateTime` set
past `waiting_datetime`, and `title`/`endTime` set at
`waiting_confirmation`, to states with the same property. -/
theorem booking_invariant_preserved (env : BotEnv) (now : PyDateTime) (u : Int)
    (e : BotEvent) (st : BotState) (hinv : StateInv st) :
    StateInv (processEvent env now u e st).state := by
  cases e with
  | textMsg t =>
    rw [processEvent, handle_text_message]
    cases st.registration_flows u with
    | some rflow => exact stateInv_handle_registration_flow env u t rflow st hinv
    | none =>
      dsimp only
      split_ifs
      · exact stateInv_setReg hinv
      · exact stateInv_processGeneralText env now u t _ st hinv
  | voiceMsg t =>
    rw [processEvent, handle_voice_message]
    split_ifs
    · exact hinv
    · exact stateInv_processGeneralText env now u t _ st hinv
  | callbackQuery d => exact stateInv_handle_inline_callback env now u d st hinv
  | prenotaCmd =>
    exact stateInv_setBooking hinv ⟨fun h => absurd rfl h, fun h => by cases h⟩
  | cancellaCmd =>
    rw [processEvent, cancella_command]
    cases st.booking_flows u with
    | some _ => exact stateInv_delBooking hinv
    | none => exact hinv
  | profiloCmd =>
    rw [processEvent, profilo_command]
    split_ifs
    · exact stateInv_setReg hinv
    · exact hinv

/-- C9 witness: starting from the empty session store (which satisfies the
invariant), the `/prenota` event yields a state that still satisfies it. -/
theorem booking_invariant_preserved_witness :
    StateInv emptyBotState ∧
    StateInv (processEvent sampleEnv nowW 5 .prenotaCmd emptyBotState).state := by
  have h0 : StateInv emptyBotState := fun _ _ h => nomatch h
  exact ⟨h0, booking_invariant_preserved sampleEnv nowW 5 .prenotaCmd emptyBotState h0⟩

/-- The datetime handler never touches the registration map. -/
theorem regPres_handle_datetime_input (now : PyDateTime) (u : Int) (text : Str)
    (flow : BookingFlow) (st : BotState) :
    (handle_datetime_input now u text flow st).state.registration_flows =
      st.registration_flows := by
  rw [handle_datetime_input]
  cases parse_datetime_natural text now with
  | none => rfl
  | some dt =>
    dsimp only
    split_ifs <;> rfl

/-- The title handler never touches the registration map. -/
theorem regPres_handle_title_input (env : BotEnv) (u : Int) (text : Str)
    (flow : BookingFlow) (st : BotState) :
    (handle_title_input env u text flow st).state.registration_flows =
      st.registration_flows := by
  rw [handle_title_input]
  cases flow.data.datetime <;> rfl

/-- The confirmation handler never touches the registration map. -/
theorem regPres_handle_confirmation_input (env : BotEnv) (u : Int) (text : Str)
    (flow : BookingFlow) (st : BotState) :
    (handle_confirmation_input env u text flow st).state.registration_flows =
      st.registration_flows := by
  rw [handle_confirmation_input]
  split_ifs
  · rw [commitBooking]
    cases flow.data.title <;> cases flow.data.datetime <;> cases flow.data.endTime <;> rfl
  · rfl
  · rfl

/-- The shared booking/intent/reply tail never touches the registration
map. -/
theorem regPres_processGeneralText (env : BotEnv) (now : PyDateTime) (u : Int)
    (text : Str) (intent : Bool) (st : BotState) :
    (processGeneralText env now u text intent st).state.registration_flows =
      st.registration_flows := by
  rw [processGeneralText]
  cases st.booking_flows u with
  | some flow =>
    dsimp only
    rcases flow with ⟨step, data⟩
    cases step with
    | waitingDatetime => exact regPres_handle_datetime_input now u text _ st
    | waitingTitle => exact regPres_handle_title_input env u text _ st
    | waitingConfirmation => exact regPres_handle_confirmation_input env u text _ st
  | none =>
    dsimp only
    split_ifs
    · rw [start_booking_flow]
      cases parse_datetime_natural text now <;> rfl
    · rfl

/-- C10: an unregistered user's voice message is processed with no
registration check at all — it goes straight into the booking-flow /
intent / normal-reply path and leaves the registration sessions untouched —
whereas a text message from the same unregistered user (with no registration
already open) always starts the registration flow instead. -/
theorem voice_skips_registration_check (env : BotEnv) (now : PyDateTime) (u : Int)
    (st : BotState) (transcript text : Str)
    (hunreg : env.isRegistered u = false) :
    (transcript ≠ [] →
      handle_voice_message env now u transcript st =
        processGeneralText env now u transcript (detect_booking_intent transcript) st ∧
      (handle_voice_message env now u transcript st).state.registration_flows =
        st.registration_flows) ∧
    (st.registration_flows u = none →
      handle_text_message env now u text st = start_registration_flow env u st ∧
      (handle_text_message env now u text st).state.registration_flows u =
        some { step := .waitingNome, telegramName := env.telegramName u } ∧
      (handle_text_message env now u text st).state.booking_flows =
        st.booking_flows) := by
  constructor
  · intro hne
    have hemp : transcript.isEmpty = false := by
      cases transcript with
      | nil => exact absurd rfl hne
      | cons c t => rfl
    have heq : handle_voice_message env now u transcript st =
        processGeneralText env now u transcript (detect_booking_intent transcript) st := by
      rw [handle_voice_message, hemp]
      rfl
    exact ⟨heq, by rw [heq]; exact regPres_processGeneralText env now u transcript _ st⟩
  · intro hnoreg
    have heq : handle_text_message env now u text st = start_registration_flow env u st := by
      rw [handle_text_message, hnoreg]
      dsimp only
      rw [hunreg]
      rfl
    refine ⟨heq, ?_, ?_⟩
    · rw [heq, start_registration_flow]
      simp [BotState.setReg]
    · rw [heq]
      rfl

/-- C10 witness: the unregistered user 7 sends the voice transcript "ciao"
(no booking intent) and the text "ciao": the voice path answers normally and
leaves registration untouched; the text path opens the registration flow. -/
theorem voice_skips_registration_check_witness :
    sampleEnvUnreg.isRegistered 7 = false ∧
    ("ciao".data ≠ []) ∧
    emptyBotState.registration_flows 7 = none ∧
    (handle_voice_message sampleEnvUnreg nowW 7 ("ciao".data) emptyBotState =
        processGeneralText sampleEnvUnreg nowW 7 ("ciao".data)
          (detect_booking_intent ("ciao".data)) emptyBotState ∧
      (handle_voice_message sampleEnvUnreg nowW 7 ("ciao".data) emptyBotState).state.registration_flows =
        emptyBotState.registration_flows) ∧
    (handle_text_message sampleEnvUnreg nowW 7 ("ciao".data) emptyBotState =
        start_registration_flow sampleEnvUnreg 7 emptyBotState ∧
      (handle_text_message sampleEnvUnreg nowW 7 ("ciao".data) emptyBotState).state.registration_flows 7 =
        some { step := .waitingNome, telegramName := sampleEnvUnreg.telegramName 7 } ∧
      (handle_text_message sampleEnvUnreg nowW 7 ("ciao".data) emptyBotState).state.booking_flows =
        emptyBotState.booking_flows) := by
  have h := voice_skips_registration_check sampleEnvUnreg nowW 7 emptyBotState
    ("ciao".data) ("ciao".data) rfl
  exact ⟨rfl, by decide, rfl, h.1 (by decide), h.2 rfl⟩
